import Mathlib

/-!
Verification of the chemical-space projection and visualization data
pipeline of `mol_view_dashboard`, embedded from
`src/mol_view_dashboard/molecular_data_processor.py` and
`scripts/chemical_space_analyzer.py`.

External collaborators (the RDKit parser/fingerprint generator/descriptor
functions, sklearn's PCA / TSNE / StandardScaler internals, and the
structure renderer) are modelled as abstract pure functions bundled in
`ExtOps`, together with the documented shape facts the pipeline relies on
(a fitted projector returns one coordinate row per input row).  Machine
floats are idealized as rationals; a pandas NaN cell is `Option.none`.
-/

namespace MolView

/-- Handle standing for a parsed molecular graph (an RDKit `Mol` object).
The parser is an external collaborator, so only the handle's identity
matters and a natural number suffices. -/
abbrev Mol := Nat

/-- Names of the nine molecular descriptors computed in
`calculate_molecular_descriptors` (molecular_data_processor.py:128-141). -/
inductive DescName
  | MW | LogP | TPSA | HBA | HBD | RotBonds | NumRings | QED | SAscore
  deriving DecidableEq, Repr

/-- The descriptor keys in the order the source builds its dict
(molecular_data_processor.py:128-141; same set at lines 145-147). -/
def descNames : List DescName :=
  [.MW, .LogP, .TPSA, .HBA, .HBD, .RotBonds, .NumRings, .QED, .SAscore]

/-- Outcome of one external descriptor call on one molecule: a finite
float value, a NaN float, or a raised exception. -/
inductive DescRes
  | val (q : ℚ)
  | nan
  | err

/-- One row of the processor's DataFrame after the load-and-filter stage.
`desc k = none` models a NaN cell; the projection-coordinate cells are
meaningful only when the owning `DF`'s column flags are set, mirroring
pandas columns existing table-wide. -/
structure CRow where
  smiles : String
  title : String
  mol : Mol
  desc : DescName → Option ℚ := fun _ => none
  pca1 : ℚ := 0
  pca2 : ℚ := 0
  tsne1 : ℚ := 0
  tsne2 : ℚ := 0

/-- The processor's DataFrame: the rows plus which derived column families
exist (mirroring `'MW' in df.columns`, `'PCA_1' in df.columns`,
`'tSNE_1' in df.columns`). -/
structure DF where
  rows : List CRow
  descCols : Bool := false
  pcaCols : Bool := false
  tsneCols : Bool := false

/-- One row of the raw CSV table: the SMILES cell (`none` models a NaN /
missing value) and the name cell, consulted only when the table has a
name column. -/
structure InputRow where
  smiles : Option String
  name : String := ""

/-- A raw input table: whether the optional name column is present, and
the rows. The required SMILES column is present by construction (the
loader raises on tables without it before any row work starts). -/
structure InputTable where
  hasName : Bool
  rows : List InputRow

/-- External collaborators as pure functions, with the documented facts
the pipeline relies on.  `morganBit r b m j` is entry `j` of the Morgan
fingerprint of molecule `m` at radius `r` and size `b` after
`ConvertToNumpyArray`; `rdkitBit b m j` likewise for the RDKit generator;
`descFn` is the per-descriptor scoring call; `sqrtQ` stands for the float
square root used inside sklearn's `StandardScaler`; `pcaFit m seed`
returns the 2-component coordinates and explained-variance ratios of
`PCA(n_components=2, random_state=seed).fit_transform(m)`; `tsneFit m
seed perp` the coordinates of `TSNE(n_components=2, random_state=seed,
perplexity=perp).fit_transform(m)`; `render` is the thumbnail renderer
(returns "" on failure, never raises).  `pca_rows` and `tsne_rows` record
the documented fact that a fitted projector returns exactly one
coordinate row per input row. -/
structure ExtOps where
  parse : String → Option Mol
  morganBit : ℕ → ℕ → Mol → ℕ → ℚ
  rdkitBit : ℕ → Mol → ℕ → ℚ
  descFn : Mol → DescName → DescRes
  sqrtQ : ℚ → ℚ
  pcaFit : List (List ℚ) → ℕ → List (ℚ × ℚ) × List ℚ
  tsneFit : List (List ℚ) → ℕ → ℕ → List (ℚ × ℚ)
  render : Mol → String
  pca_rows : ∀ m s, ((pcaFit m s).1).length = m.length
  tsne_rows : ∀ m s p, (tsneFit m s p).length = m.length

/-- The configuration fields the pipeline consults, with the defaults of
`config_manager.py:76-84`.  Both projectors' `n_components` is fixed at
its default 2, the only value consistent with the assembler's
`PCA_1`/`PCA_2` and `tSNE_1`/`tSNE_2` reads
(molecular_data_processor.py:348-354); the custom
`input.property_columns` are not modelled (no claim involves them). -/
structure Config where
  calcDescriptors : Bool := true
  fpType : String := "morgan"
  fpRadius : ℕ := 2
  fpNBits : ℕ := 2048
  pcaEnabled : Bool := true
  tsneEnabled : Bool := true
  tsnePerplexity : ℕ := 30
  tsneRandomState : ℕ := 42

/-- The stage of `load_and_process_data` after the CSV read
(molecular_data_processor.py:77-103): when the name column is absent,
synthesize `Compound_{i+1}` titles over the original pre-filter order
(line 80), copy the name column to `title` (line 84), build a molecule
per row (`None` for a NaN SMILES cell, line 88-90), and keep exactly the
rows whose molecule is non-null, resetting the index (line 100). -/
def load (parse : String → Option Mol) (t : InputTable) : DF :=
  { rows :=
      ((t.rows.enum.map fun p =>
          (p.2, if t.hasName then p.2.name
                else "Compound_" ++ toString (p.1 + 1))).filterMap
        fun p =>
          match p.1.smiles with
          | none => none
          | some s =>
            match parse s with
            | none => none
            | some m => some { smiles := s, title := p.2, mol := m }) }

/-- Whether the external descriptor batch for one molecule raised:
`calculate_molecular_descriptors` evaluates the nine calls inside a
single try (molecular_data_processor.py:127-142), so any raising call
sends the whole compound to the except branch. -/
def descRaised (d : Mol → DescName → DescRes) (m : Mol) : Bool :=
  descNames.any fun k => match d m k with | .err => true | _ => false

/-- Descriptor cells one compound contributes
(molecular_data_processor.py:127-149): the nine computed values on
success, all-NaN when any call raised (lines 143-147); a call returning
NaN yields a NaN cell without entering the except branch. -/
def descRow (d : Mol → DescName → DescRes) (m : Mol) : DescName → Option ℚ :=
  if descRaised d m then fun _ => none
  else fun k => match d m k with | .val q => some q | _ => none

/-- `calculate_molecular_descriptors` (molecular_data_processor.py:
105-166): returns the DataFrame unchanged when disabled (line 115);
otherwise adds the nine descriptor columns (an empty DataFrame yields an
empty `desc_df`, hence no columns) and keeps every compound (line 156). -/
def calcDescriptors (ext : ExtOps) (cfg : Config) (df : DF) : DF :=
  if cfg.calcDescriptors then
    { df with
      rows := df.rows.map fun r => { r with desc := descRow ext.descFn r.mol },
      descCols := !df.rows.isEmpty }
  else df

/-- One fingerprint vector (molecular_data_processor.py:186-204): the
generator chosen from the configured type (`morgan` / `rdkit`, anything
else falls back to Morgan with a warning), written into a preallocated
length-`n_bits` zero array by `ConvertToNumpyArray`. -/
def fpVector (ext : ExtOps) (cfg : Config) (m : Mol) : List ℚ :=
  if cfg.fpType.toLower = "morgan" then
    (List.range cfg.fpNBits).map (ext.morganBit cfg.fpRadius cfg.fpNBits m)
  else if cfg.fpType.toLower = "rdkit" then
    (List.range cfg.fpNBits).map (ext.rdkitBit cfg.fpNBits m)
  else
    (List.range cfg.fpNBits).map (ext.morganBit cfg.fpRadius cfg.fpNBits m)

/-- `calculate_molecular_fingerprints` (molecular_data_processor.py:
168-209): one fingerprint row per DataFrame row, in row order. -/
def calcFingerprints (ext : ExtOps) (cfg : Config) (df : DF) : List (List ℚ) :=
  df.rows.map fun r => fpVector ext cfg r.mol

/-- Column `j` of a row-major matrix; out-of-range cells read as 0 (the
pipeline only applies this to rectangular fingerprint matrices, where
every row has length `n_bits`). -/
def colVals (m : List (List ℚ)) (j : ℕ) : List ℚ :=
  m.map fun row => row.getD j 0

/-- Arithmetic mean of a column, as computed by `StandardScaler`. -/
def listMean (xs : List ℚ) : ℚ := xs.sum / (xs.length : ℚ)

/-- Population variance (ddof = 0) of a column, as computed by
`StandardScaler`. -/
def listVar (xs : List ℚ) : ℚ :=
  ((xs.map fun x => (x - listMean xs) ^ 2).sum) / (xs.length : ℚ)

/-- Per-column scale of `StandardScaler`: the standard deviation with
zeros replaced by 1 (sklearn's `_handle_zeros_in_scale`), so the
division below is always by a nonzero number.  Embeds the sklearn
behavior the source invokes at molecular_data_processor.py:232-233 and
chemical_space_analyzer.py:120-122. -/
def scaleOf (sqrtQ : ℚ → ℚ) (xs : List ℚ) : ℚ :=
  let s := sqrtQ (listVar xs)
  if s = 0 then 1 else s

/-- `StandardScaler().fit_transform`: per-column `(x - mean) / scale`.
Total by construction — the standardizer never raises. -/
def standardize (sqrtQ : ℚ → ℚ) (m : List (List ℚ)) : List (List ℚ) :=
  m.map fun row =>
    row.enum.map fun p =>
      (p.2 - listMean (colVals m p.1)) / scaleOf sqrtQ (colVals m p.1)

/-- Writing one PCA coordinate pair into a row's `PCA_1`/`PCA_2` cells
(molecular_data_processor.py:249-250). -/
def fillPCA (r : CRow) (c : ℚ × ℚ) : CRow := { r with pca1 := c.1, pca2 := c.2 }

/-- Writing one t-SNE coordinate pair into a row's `tSNE_1`/`tSNE_2`
cells (molecular_data_processor.py:268-269). -/
def fillTSNE (r : CRow) (c : ℚ × ℚ) : CRow := { r with tsne1 := c.1, tsne2 := c.2 }

/-- State after `perform_chemical_space_analysis`: the possibly augmented
DataFrame, the fingerprint matrix (`self.fingerprint_matrix`), and the
method's return triple.  `pcaRet = none` models returning the Python
`None` held in `self.pca_coords` when PCA is disabled; `some []` models
the `np.array([])` of the tiny-dataset early return.  `pcaRan` models
`self.pca_model is not None`. -/
structure ChemState where
  df : DF
  fpMatrix : List (List ℚ)
  pcaRet : Option (List (ℚ × ℚ))
  tsneRet : List (ℚ × ℚ)
  evr : List ℚ
  pcaRan : Bool

/-- Effective t-SNE perplexity (molecular_data_processor.py:257 and
chemical_space_analyzer.py:132): `min(perplexity, len(df) // 4)` with
Python floor division. -/
def effPerplexity (p n : ℕ) : ℕ := min p (n / 4)

/-- `perform_chemical_space_analysis` (molecular_data_processor.py:
211-282): compute fingerprints (line 218-219), return empty arrays when
fewer than 2 compounds without touching the DataFrame (lines 221-227),
else standardize (232-233), run PCA with hard-coded `random_state=42`
when enabled, adding the `PCA_*` columns (237-250), and run t-SNE when
enabled and at least 10 compounds, with the adaptive perplexity cap,
adding the `tSNE_*` columns (253-269). -/
def runChemSpace (ext : ExtOps) (cfg : Config) (df : DF) : ChemState :=
  let fpM := calcFingerprints ext cfg df
  if df.rows.length < 2 then
    { df := df, fpMatrix := fpM, pcaRet := some [], tsneRet := [],
      evr := [], pcaRan := false }
  else
    let scaled := standardize ext.sqrtQ fpM
    let st1 : ChemState :=
      if cfg.pcaEnabled then
        let pr := ext.pcaFit scaled 42
        { df := { df with
            rows := df.rows.zipWith fillPCA pr.1,
            pcaCols := true },
          fpMatrix := fpM, pcaRet := some pr.1, tsneRet := [],
          evr := pr.2, pcaRan := true }
      else
        { df := df, fpMatrix := fpM, pcaRet := none, tsneRet := [],
          evr := [], pcaRan := false }
    if cfg.tsneEnabled ∧ 10 ≤ df.rows.length then
      let tc := ext.tsneFit scaled cfg.tsneRandomState
        (effPerplexity cfg.tsnePerplexity df.rows.length)
      { st1 with
        df := { st1.df with
          rows := st1.df.rows.zipWith fillTSNE tc,
          tsneCols := true },
        tsneRet := tc }
    else st1

/-- One flat visualization record as assembled by
`prepare_visualization_data`; a `none` field models an absent dict key,
`some v` a key bound to the finite float `v`. -/
structure VizRecord where
  id : ℕ
  title : String
  smiles : String
  descVals : DescName → Option ℚ
  pcaX : Option ℚ
  pcaY : Option ℚ
  tsneX : Option ℚ
  tsneY : Option ℚ
  image : String

/-- `prepare_visualization_data` (molecular_data_processor.py:308-373):
one record per row in row order, `id` the reset row index (line 332), a
descriptor key emitted only when its column exists and the cell is not
NaN (lines 343-345), the pair `pca_x`/`pca_y` emitted together under the
single guard on `PCA_1` (lines 348-350; coordinate cells hold finite
sklearn outputs, so `notna` holds exactly when the column exists) and
likewise `tsne_x`/`tsne_y` (lines 352-354). -/
def prepareViz (ext : ExtOps) (df : DF) : List VizRecord :=
  df.rows.enum.map fun p =>
    { id := p.1
      title := p.2.title
      smiles := p.2.smiles
      descVals := fun k => if df.descCols then p.2.desc k else none
      pcaX := if df.pcaCols then some p.2.pca1 else none
      pcaY := if df.pcaCols then some p.2.pca2 else none
      tsneX := if df.tsneCols then some p.2.tsne1 else none
      tsneY := if df.tsneCols then some p.2.tsne2 else none
      image := ext.render p.2.mol }

/-- The dataset-summary fields of `get_data_summary`
(molecular_data_processor.py:402-418) that the projection claims
consult: `has_pca`/`has_tsne` are column-existence checks and
`pca_variance` is the fitted model's ratio list, `[]` when no PCA model
was fitted. -/
structure Summary where
  totalCompounds : ℕ
  hasPCA : Bool
  hasTSNE : Bool
  pcaVariance : List ℚ

/-- `get_data_summary` evaluated on the post-analysis state. -/
def dataSummary (st : ChemState) : Summary :=
  { totalCompounds := st.df.rows.length
    hasPCA := st.df.pcaCols
    hasTSNE := st.df.tsneCols
    pcaVariance := if st.pcaRan then st.evr else [] }

/-- The pipeline in the order its callers invoke it (run_analysis.py:
242-288, test_example.py:114-131): load, descriptors, chemical-space
analysis, visualization records, summary. -/
def pipeline (ext : ExtOps) (cfg : Config) (t : InputTable) :
    ChemState × List VizRecord × Summary :=
  let df1 := calcDescriptors ext cfg (load ext.parse t)
  let st := runChemSpace ext cfg df1
  (st, prepareViz ext st.df, dataSummary st)

/-- One row of the combined DataFrame built by the script's loader
(`load_multiple_csv_files`, chemical_space_analyzer.py:49-90). -/
structure SRow where
  smiles : String
  name : String
  source : String
  mol : Mol

/-- One file's contribution in `load_multiple_csv_files`
(chemical_space_analyzer.py:55-83): synthesize `Compound_{i+1}` names
over the pre-filter order when the Name column is absent (lines 69-71),
attach the source label, parse each SMILES cell, and keep the rows whose
molecule is non-null. -/
def loadOneCSV (parse : String → Option Mol) (label : String)
    (hasName : Bool) (rows : List InputRow) : List SRow :=
  ((rows.enum.map fun p =>
      (p.2, if hasName then p.2.name
            else "Compound_" ++ toString (p.1 + 1))).filterMap
    fun p =>
      match p.1.smiles with
      | none => none
      | some s =>
        (parse s).map fun m =>
          { smiles := s, name := p.2, source := label, mol := m })

/-- `load_multiple_csv_files` over a list of (label, has-Name-column,
rows) triples: per-file load then concatenation with a fresh index
(chemical_space_analyzer.py:86-88). -/
def loadMultipleCSV (parse : String → Option Mol)
    (files : List (String × Bool × List InputRow)) : List SRow :=
  files.flatMap fun f => loadOneCSV parse f.1 f.2.1 f.2.2

/-- A concrete instantiation of the external collaborators, used to
evaluate the pipeline on concrete inputs: the one malformed notation of
the spec's end-to-end scenario fails to parse, every other string yields
handle 0, descriptors all succeed, and the projectors return zero
coordinates of the documented shape. -/
def sampleExt : ExtOps where
  parse := fun s => if s = "not_a_smiles" then none else some 0
  morganBit := fun _ _ _ _ => 0
  rdkitBit := fun _ _ _ => 0
  descFn := fun _ _ => .val 1
  sqrtQ := fun q => q
  pcaFit := fun m _ => (m.map fun _ => ((0 : ℚ), (0 : ℚ)), [0, 0])
  tsneFit := fun m _ _ => m.map fun _ => ((0 : ℚ), (0 : ℚ))
  render := fun _ => ""
  pca_rows := by intro m s; simp
  tsne_rows := by intro m s p; simp

/-- Fields of a DataFrame row that the projection stage never touches. -/
def CRow.core (r : CRow) : String × String × Mol × (DescName → Option ℚ) :=
  (r.smiles, r.title, r.mol, r.desc)

theorem length_filterMap_countP (g : α → Option β) (l : List α) :
    (l.filterMap g).length = l.countP fun a => (g a).isSome := by
  induction l with
  | nil => rfl
  | cons a l ih =>
    cases h : g a <;>
      simp [List.filterMap_cons, h, List.countP_cons, ih]

theorem calcDescriptors_rows_length (ext : ExtOps) (cfg : Config) (df : DF) :
    (calcDescriptors ext cfg df).rows.length = df.rows.length := by
  unfold calcDescriptors; split <;> simp

theorem calcDescriptors_flags (ext : ExtOps) (cfg : Config) (df : DF) :
    (calcDescriptors ext cfg df).pcaCols = df.pcaCols ∧
      (calcDescriptors ext cfg df).tsneCols = df.tsneCols := by
  unfold calcDescriptors; split <;> simp

theorem calcFingerprints_length (ext : ExtOps) (cfg : Config) (df : DF) :
    (calcFingerprints ext cfg df).length = df.rows.length := by
  simp [calcFingerprints]

theorem standardize_length (s : ℚ → ℚ) (m : List (List ℚ)) :
    (standardize s m).length = m.length := by
  simp [standardize]

theorem calcDescriptors_rows_getElem? (ext : ExtOps) (cfg : Config) (df : DF) (i : ℕ) :
    (calcDescriptors ext cfg df).rows[i]? =
      (df.rows[i]?).map fun r =>
        if cfg.calcDescriptors then { r with desc := descRow ext.descFn r.mol } else r := by
  unfold calcDescriptors
  by_cases h : cfg.calcDescriptors <;> simp [h]

theorem zipWith_getElem?_eq_some {α β γ : Type} {f : α → β → γ} {xs : List α}
    {ys : List β} {i : ℕ} {a : α} {b : β}
    (ha : xs[i]? = some a) (hb : ys[i]? = some b) :
    (List.zipWith f xs ys)[i]? = some (f a b) := by
  simp [List.getElem?_zipWith', ha, hb]

theorem zipWith_getElem?_map_eq {α β γ : Type} (f : α → β → α) (g : α → γ)
    (hg : ∀ a b, g (f a b) = g a) {xs : List α} {ys : List β}
    (hlen : xs.length = ys.length) (i : ℕ) :
    ((List.zipWith f xs ys)[i]?).map g = (xs[i]?).map g := by
  rcases Nat.lt_or_ge i xs.length with hi | hi
  · have hyi : i < ys.length := hlen ▸ hi
    rw [List.getElem?_zipWith', List.getElem?_eq_getElem hi, List.getElem?_eq_getElem hyi]
    simp [hg]
  · have hx : xs[i]? = none := List.getElem?_eq_none hi
    have hz : (List.zipWith f xs ys)[i]? = none := by
      refine List.getElem?_eq_none ?_
      simpa [List.length_zipWith, hlen] using hi
    simp [hx, hz]

theorem pcaCoords_length (ext : ExtOps) (cfg : Config) (df : DF) :
    ((ext.pcaFit (standardize ext.sqrtQ (calcFingerprints ext cfg df)) 42).1).length
      = df.rows.length := by
  rw [ext.pca_rows, standardize_length, calcFingerprints_length]

theorem tsneCoords_length (ext : ExtOps) (cfg : Config) (df : DF) (s p : ℕ) :
    (ext.tsneFit (standardize ext.sqrtQ (calcFingerprints ext cfg df)) s p).length
      = df.rows.length := by
  rw [ext.tsne_rows, standardize_length, calcFingerprints_length]

theorem runChemSpace_small (ext : ExtOps) (cfg : Config) (df : DF)
    (h2 : df.rows.length < 2) :
    runChemSpace ext cfg df =
      { df := df, fpMatrix := calcFingerprints ext cfg df, pcaRet := some [],
        tsneRet := [], evr := [], pcaRan := false } := by
  simp [runChemSpace, h2]

theorem runChemSpace_fpMatrix (ext : ExtOps) (cfg : Config) (df : DF) :
    (runChemSpace ext cfg df).fpMatrix = calcFingerprints ext cfg df := by
  unfold runChemSpace
  by_cases h2 : df.rows.length < 2
  · simp [h2]
  · by_cases hp : cfg.pcaEnabled = true <;>
      by_cases ht : cfg.tsneEnabled = true ∧ 10 ≤ df.rows.length <;>
        simp [h2, hp, ht]

theorem runChemSpace_pca_on (ext : ExtOps) (cfg : Config) (df : DF)
    (h2 : ¬ df.rows.length < 2) (hp : cfg.pcaEnabled = true) :
    (runChemSpace ext cfg df).pcaRet =
        some ((ext.pcaFit (standardize ext.sqrtQ (calcFingerprints ext cfg df)) 42).1) ∧
      (runChemSpace ext cfg df).evr =
        (ext.pcaFit (standardize ext.sqrtQ (calcFingerprints ext cfg df)) 42).2 ∧
      (runChemSpace ext cfg df).pcaRan = true ∧
      (runChemSpace ext cfg df).df.pcaCols = true := by
  unfold runChemSpace
  by_cases ht : cfg.tsneEnabled = true ∧ 10 ≤ df.rows.length <;>
    simp [h2, hp, ht]

theorem runChemSpace_tsne_on (ext : ExtOps) (cfg : Config) (df : DF)
    (h10 : 10 ≤ df.rows.length) (htE : cfg.tsneEnabled = true) :
    (runChemSpace ext cfg df).tsneRet =
        ext.tsneFit (standardize ext.sqrtQ (calcFingerprints ext cfg df))
          cfg.tsneRandomState (effPerplexity cfg.tsnePerplexity df.rows.length) ∧
      (runChemSpace ext cfg df).df.tsneCols = true := by
  have h2 : ¬ df.rows.length < 2 := by omega
  unfold runChemSpace
  by_cases hp : cfg.pcaEnabled = true <;> simp [h2, hp, htE, h10]

theorem runChemSpace_tsne_off (ext : ExtOps) (cfg : Config) (df : DF)
    (h2 : ¬ df.rows.length < 2)
    (ht : ¬ (cfg.tsneEnabled = true ∧ 10 ≤ df.rows.length)) :
    (runChemSpace ext cfg df).tsneRet = [] ∧
      (runChemSpace ext cfg df).df.tsneCols = df.tsneCols := by
  unfold runChemSpace
  by_cases hp : cfg.pcaEnabled = true <;> simp [h2, hp, ht]

theorem runChemSpace_rows_core (ext : ExtOps) (cfg : Config) (df : DF) (i : ℕ) :
    ((runChemSpace ext cfg df).df.rows[i]?).map CRow.core
      = (df.rows[i]?).map CRow.core := by
  unfold runChemSpace
  by_cases h2 : df.rows.length < 2
  · simp [h2]
  · by_cases hp : cfg.pcaEnabled = true <;>
      by_cases ht : cfg.tsneEnabled = true ∧ 10 ≤ df.rows.length <;>
        simp only [h2, hp, ht, if_true, if_false, ite_true, ite_false,
          Bool.false_eq_true, and_true, and_false, not_false_iff]
    · exact (zipWith_getElem?_map_eq fillTSNE CRow.core (fun a b => rfl)
        (by simp [List.length_zipWith, pcaCoords_length, tsneCoords_length]) i).trans
        (zipWith_getElem?_map_eq fillPCA CRow.core (fun a b => rfl)
          (pcaCoords_length ext cfg df).symm i)
    · exact zipWith_getElem?_map_eq fillPCA CRow.core (fun a b => rfl)
        (pcaCoords_length ext cfg df).symm i
    · exact zipWith_getElem?_map_eq fillTSNE CRow.core (fun a b => rfl)
        (tsneCoords_length ext cfg df _ _).symm i

theorem runChemSpace_pca_off (ext : ExtOps) (cfg : Config) (df : DF)
    (h2 : ¬ df.rows.length < 2) (hp : ¬ cfg.pcaEnabled = true) :
    (runChemSpace ext cfg df).pcaRet = none ∧
      (runChemSpace ext cfg df).evr = [] ∧
      (runChemSpace ext cfg df).pcaRan = false ∧
      (runChemSpace ext cfg df).df.pcaCols = df.pcaCols := by
  unfold runChemSpace
  by_cases ht : cfg.tsneEnabled = true ∧ 10 ≤ df.rows.length <;>
    simp [h2, hp, ht]

theorem runChemSpace_rows_length (ext : ExtOps) (cfg : Config) (df : DF) :
    (runChemSpace ext cfg df).df.rows.length = df.rows.length := by
  unfold runChemSpace
  by_cases h2 : df.rows.length < 2
  · simp [h2]
  · by_cases hp : cfg.pcaEnabled = true <;>
      by_cases ht : cfg.tsneEnabled = true ∧ 10 ≤ df.rows.length <;>
        simp [h2, hp, ht, List.length_zipWith, pcaCoords_length, tsneCoords_length]

theorem prepareViz_getElem? (ext : ExtOps) (df : DF) (i : ℕ) :
    (prepareViz ext df)[i]? = (df.rows[i]?).map fun r =>
      { id := i
        title := r.title
        smiles := r.smiles
        descVals := fun k => if df.descCols then r.desc k else none
        pcaX := if df.pcaCols then some r.pca1 else none
        pcaY := if df.pcaCols then some r.pca2 else none
        tsneX := if df.tsneCols then some r.tsne1 else none
        tsneY := if df.tsneCols then some r.tsne2 else none
        image := ext.render r.mol } := by
  unfold prepareViz
  rw [List.getElem?_map, List.getElem?_enum]
  cases df.rows[i]? <;> rfl

theorem prepareViz_length (ext : ExtOps) (df : DF) :
    (prepareViz ext df).length = df.rows.length := by
  simp [prepareViz]

theorem prepareViz_ids (ext : ExtOps) (df : DF) :
    (prepareViz ext df).map (fun rec => rec.id) = List.range df.rows.length := by
  unfold prepareViz
  rw [List.map_map]
  exact List.enum_map_fst df.rows

theorem load_rows_length (parse : String → Option Mol) (t : InputTable) :
    (load parse t).rows.length
      = t.rows.countP fun r => (r.smiles.bind parse).isSome := by
  unfold load
  rw [length_filterMap_countP, List.countP_map]
  conv_rhs => rw [← List.enum_map_snd t.rows, List.countP_map]
  refine List.countP_congr fun p _ => ?_
  cases hsm : p.2.smiles with
  | none => simp [Function.comp, hsm]
  | some s => cases hp : parse s <;> simp [Function.comp, hsm, hp]

theorem filterMap_if_eq_filter_map {α β : Type} (pred : α → Bool) (f : α → β)
    (g : α → Option β) (hg : ∀ a, g a = if pred a then some (f a) else none)
    (l : List α) : l.filterMap g = (l.filter pred).map f := by
  induction l with
  | nil => rfl
  | cons a l ih =>
    rw [List.filterMap_cons, hg a, List.filter_cons]
    by_cases h : pred a <;> simp [h, ih]

theorem runChemSpace_rows_char (ext : ExtOps) (cfg : Config) (df : DF) (i : ℕ)
    (r : CRow) (hr : df.rows[i]? = some r)
    (hPC : df.pcaCols = false) (hTC : df.tsneCols = false) :
    ∃ r', (runChemSpace ext cfg df).df.rows[i]? = some r' ∧
      CRow.core r' = CRow.core r ∧
      ((runChemSpace ext cfg df).df.pcaCols = true →
        ∃ cs c, (runChemSpace ext cfg df).pcaRet = some cs ∧ cs[i]? = some c ∧
          r'.pca1 = c.1 ∧ r'.pca2 = c.2) ∧
      ((runChemSpace ext cfg df).df.tsneCols = true →
        ∃ c, (runChemSpace ext cfg df).tsneRet[i]? = some c ∧
          r'.tsne1 = c.1 ∧ r'.tsne2 = c.2) := by
  have hi : i < df.rows.length := by
    by_contra h
    rw [List.getElem?_eq_none (Nat.le_of_not_lt h)] at hr
    exact Option.noConfusion hr
  unfold runChemSpace
  by_cases h2 : df.rows.length < 2
  · refine ⟨r, by simpa [h2] using hr, rfl, ?_, ?_⟩ <;> simp [h2, hPC, hTC]
  · by_cases hp : cfg.pcaEnabled = true <;>
      by_cases ht : cfg.tsneEnabled = true ∧ 10 ≤ df.rows.length <;>
        simp only [h2, hp, ht, if_true, if_false, ite_true, ite_false,
          Bool.false_eq_true, and_true, and_false, not_false_iff]
    · have hc : ((ext.pcaFit (standardize ext.sqrtQ (calcFingerprints ext cfg df)) 42).1)[i]?
          = some (((ext.pcaFit (standardize ext.sqrtQ (calcFingerprints ext cfg df)) 42).1).get
            ⟨i, by rw [pcaCoords_length]; exact hi⟩) :=
        List.getElem?_eq_getElem (by rw [pcaCoords_length]; exact hi)
      have hct : (ext.tsneFit (standardize ext.sqrtQ (calcFingerprints ext cfg df))
            cfg.tsneRandomState (effPerplexity cfg.tsnePerplexity df.rows.length))[i]?
          = some ((ext.tsneFit (standardize ext.sqrtQ (calcFingerprints ext cfg df))
            cfg.tsneRandomState (effPerplexity cfg.tsnePerplexity df.rows.length)).get
            ⟨i, by rw [tsneCoords_length]; exact hi⟩) :=
        List.getElem?_eq_getElem (by rw [tsneCoords_length]; exact hi)
      refine ⟨_, zipWith_getElem?_eq_some (zipWith_getElem?_eq_some hr hc) hct, rfl,
        fun _ => ⟨_, _, rfl, hc, rfl, rfl⟩, fun _ => ⟨_, hct, rfl, rfl⟩⟩
    · have hc : ((ext.pcaFit (standardize ext.sqrtQ (calcFingerprints ext cfg df)) 42).1)[i]?
          = some (((ext.pcaFit (standardize ext.sqrtQ (calcFingerprints ext cfg df)) 42).1).get
            ⟨i, by rw [pcaCoords_length]; exact hi⟩) :=
        List.getElem?_eq_getElem (by rw [pcaCoords_length]; exact hi)
      exact ⟨_, zipWith_getElem?_eq_some hr hc, rfl,
        fun _ => ⟨_, _, rfl, hc, rfl, rfl⟩, fun h => by simp [hTC] at h⟩
    · have hct : (ext.tsneFit (standardize ext.sqrtQ (calcFingerprints ext cfg df))
            cfg.tsneRandomState (effPerplexity cfg.tsnePerplexity df.rows.length))[i]?
          = some ((ext.tsneFit (standardize ext.sqrtQ (calcFingerprints ext cfg df))
            cfg.tsneRandomState (effPerplexity cfg.tsnePerplexity df.rows.length)).get
            ⟨i, by rw [tsneCoords_length]; exact hi⟩) :=
        List.getElem?_eq_getElem (by rw [tsneCoords_length]; exact hi)
      exact ⟨_, zipWith_getElem?_eq_some hr hct, rfl,
        fun h => by simp [hPC] at h, fun _ => ⟨_, hct, rfl, rfl⟩⟩
    · exact ⟨r, hr, rfl, fun h => by simp [hPC] at h, fun h => by simp [hTC] at h⟩

/-- A small concrete DataFrame with `n` identical already-loaded rows,
used to instantiate theorems at concrete dataset sizes. -/
def dfN (n : ℕ) : DF :=
  { rows := List.replicate n { smiles := "CCO", title := "Ethanol", mol := 0 } }

/-- A concrete input table whose middle row fails to parse under
`sampleExt.parse`. -/
def tEx : InputTable :=
  { hasName := true
    rows := [{ smiles := some "CCO", name := "Ethanol" },
             { smiles := some "not_a_smiles", name := "Bad" },
             { smiles := some "CC", name := "Ethane" }] }

/-- A concrete input table without a name column whose middle row fails
to parse under `sampleExt.parse`. -/
def tNoName : InputTable :=
  { hasName := false
    rows := [{ smiles := some "CCO" }, { smiles := some "not_a_smiles" },
             { smiles := some "CC" }] }

/-- C3: whenever the neighbor-embedding projector runs (t-SNE enabled and
at least 10 compounds), the perplexity handed to the external `TSNE` call
is `min(perplexity_hint, n_records // 4)`; in particular the effective
parameter for n = 20 and hint 30 is `min 30 (20 / 4) = 5`. -/
theorem tsne_perplexity_cap (ext : ExtOps) (cfg : Config) (df : DF)
    (htE : cfg.tsneEnabled = true) (h10 : 10 ≤ df.rows.length) :
    (runChemSpace ext cfg df).tsneRet =
      ext.tsneFit (standardize ext.sqrtQ (calcFingerprints ext cfg df))
        cfg.tsneRandomState (min cfg.tsnePerplexity (df.rows.length / 4)) ∧
    effPerplexity 30 20 = 5 :=
  ⟨(runChemSpace_tsne_on ext cfg df h10 htE).1, rfl⟩

/-- Witness for C3 at the default configuration and a 10-compound
dataset. -/
theorem tsne_perplexity_cap_witness :
    (runChemSpace sampleExt {} (dfN 10)).tsneRet =
      sampleExt.tsneFit
        (standardize sampleExt.sqrtQ (calcFingerprints sampleExt {} (dfN 10)))
        ({} : Config).tsneRandomState
        (min ({} : Config).tsnePerplexity ((dfN 10).rows.length / 4)) ∧
    effPerplexity 30 20 = 5 :=
  tsne_perplexity_cap sampleExt {} (dfN 10) rfl (by decide)

/-- C4: with fewer than 2 compounds both projectors return empty outputs
(the analysis is total, so nothing raises); with 2 to 9 compounds and
PCA enabled, the linear projector produces an n-row coordinate matrix of
pairs while t-SNE is skipped and the summary reports `has_tsne = false`;
with at least 10 compounds and t-SNE enabled, the neighbor projector
runs. -/
theorem projection_size_policy (ext : ExtOps) (cfg : Config) (df : DF)
    (hTC : df.tsneCols = false) :
    (df.rows.length < 2 →
      (runChemSpace ext cfg df).pcaRet = some [] ∧
        (runChemSpace ext cfg df).tsneRet = [] ∧
        (runChemSpace ext cfg df).evr = []) ∧
    (2 ≤ df.rows.length → df.rows.length ≤ 9 → cfg.pcaEnabled = true →
      (∃ cs, (runChemSpace ext cfg df).pcaRet = some cs ∧
          cs.length = df.rows.length) ∧
        (runChemSpace ext cfg df).tsneRet = [] ∧
        (dataSummary (runChemSpace ext cfg df)).hasTSNE = false) ∧
    (10 ≤ df.rows.length → cfg.tsneEnabled = true →
      (dataSummary (runChemSpace ext cfg df)).hasTSNE = true ∧
        (runChemSpace ext cfg df).tsneRet.length = df.rows.length) := by
  refine ⟨fun h2 => ?_, fun ha hb hp => ?_, fun h10 htE => ?_⟩
  · rw [runChemSpace_small ext cfg df h2]
    exact ⟨rfl, rfl, rfl⟩
  · have h2 : ¬ df.rows.length < 2 := by omega
    have ht : ¬ (cfg.tsneEnabled = true ∧ 10 ≤ df.rows.length) := by
      rintro ⟨-, h⟩; omega
    obtain ⟨hpca, -, -, -⟩ := runChemSpace_pca_on ext cfg df h2 hp
    obtain ⟨htr, htc⟩ := runChemSpace_tsne_off ext cfg df h2 ht
    exact ⟨⟨_, hpca, pcaCoords_length ext cfg df⟩, htr,
      by simp [dataSummary, htc, hTC]⟩
  · obtain ⟨htr, htc⟩ := runChemSpace_tsne_on ext cfg df h10 htE
    refine ⟨by simp [dataSummary, htc], ?_⟩
    rw [htr]
    exact tsneCoords_length ext cfg df _ _

/-- Witness for C4 at datasets of size 1, 5, and 10 under the default
configuration. -/
theorem projection_size_policy_witness :
    ((runChemSpace sampleExt {} (dfN 1)).pcaRet = some [] ∧
      (runChemSpace sampleExt {} (dfN 1)).tsneRet = [] ∧
      (runChemSpace sampleExt {} (dfN 1)).evr = []) ∧
    ((∃ cs, (runChemSpace sampleExt {} (dfN 5)).pcaRet = some cs ∧
        cs.length = (dfN 5).rows.length) ∧
      (runChemSpace sampleExt {} (dfN 5)).tsneRet = [] ∧
      (dataSummary (runChemSpace sampleExt {} (dfN 5))).hasTSNE = false) ∧
    ((dataSummary (runChemSpace sampleExt {} (dfN 10))).hasTSNE = true ∧
      (runChemSpace sampleExt {} (dfN 10)).tsneRet.length = (dfN 10).rows.length) :=
  ⟨(projection_size_policy sampleExt {} (dfN 1) rfl).1 (by decide),
   (projection_size_policy sampleExt {} (dfN 5) rfl).2.1 (by decide) (by decide) rfl,
   (projection_size_policy sampleExt {} (dfN 10) rfl).2.2 (by decide) rfl⟩

/-- C9: on a matrix whose column `j` is all zeros (a zero-variance
column), the standardizer emits 0 in that column for every row, and its
per-column divisor is never zero (sklearn's zero-replacement), so no
entry is NaN or Inf; `standardize` is a total function, so it does not
raise. -/
theorem standardizer_zero_variance (sq : ℚ → ℚ) (m : List (List ℚ)) (j : ℕ)
    (hcol : ∀ row ∈ m, row[j]? = some 0) :
    (∀ (i : ℕ) (row : List ℚ), m[i]? = some row →
      ∃ srow : List ℚ, (standardize sq m)[i]? = some srow ∧ srow[j]? = some 0) ∧
    ∀ j' : ℕ, scaleOf sq (colVals m j') ≠ 0 := by
  have hmean : listMean (colVals m j) = 0 := by
    have hz : ∀ x ∈ colVals m j, x = 0 := by
      intro x hx
      obtain ⟨row, hrow, hgx⟩ := List.mem_map.mp hx
      rw [← hgx, List.getD_eq_getElem?_getD, hcol row hrow]
      rfl
    rw [listMean, List.sum_eq_zero hz, zero_div]
  constructor
  · intro i row hrow
    have hrmem : row ∈ m := List.getElem?_mem hrow
    have hj : row[j]? = some 0 := hcol row hrmem
    refine ⟨row.enum.map fun p =>
      (p.2 - listMean (colVals m p.1)) / scaleOf sq (colVals m p.1), ?_, ?_⟩
    · rw [standardize, List.getElem?_map, hrow]
      rfl
    · rw [List.getElem?_map, List.getElem?_enum, hj]
      simp [hmean]
  · intro j'
    by_cases h : sq (listVar (colVals m j')) = 0 <;> simp [scaleOf, h]

/-- Witness for C9 on a concrete 2-by-2 matrix whose first column is all
zeros. -/
theorem standardizer_zero_variance_witness :
    (∀ (i : ℕ) (row : List ℚ), (([[0, 1], [0, 2]] : List (List ℚ)))[i]? = some row →
      ∃ srow : List ℚ, (standardize id [[0, 1], [0, 2]])[i]? = some srow ∧
        srow[0]? = some 0) ∧
    ∀ j' : ℕ, scaleOf id (colVals [[0, 1], [0, 2]] j') ≠ 0 :=
  standardizer_zero_variance id [[0, 1], [0, 2]] 0 (by decide)

/-- C10: in every emitted visualization record, `pca_x` is present iff
`pca_y` is, and `tsne_x` is present iff `tsne_y` is — the assembler sets
each pair under a single guard. -/
theorem paired_projection_keys (ext : ExtOps) (df : DF) (i : ℕ)
    (rec : VizRecord) (h : (prepareViz ext df)[i]? = some rec) :
    ((rec.pcaX).isSome ↔ (rec.pcaY).isSome) ∧
      ((rec.tsneX).isSome ↔ (rec.tsneY).isSome) := by
  rw [prepareViz_getElem?] at h
  cases hr : df.rows[i]? with
  | none => rw [hr] at h; exact Option.noConfusion h
  | some r =>
    rw [hr] at h
    obtain rfl := Option.some.inj h
    cases hq : df.pcaCols <;> cases ht : df.tsneCols <;> simp [hq, ht]

/-- Witness for C10 on the first record of a one-row DataFrame. -/
theorem paired_projection_keys_witness :
    ∃ rec, (prepareViz sampleExt (dfN 1))[0]? = some rec ∧
      (((rec.pcaX).isSome ↔ (rec.pcaY).isSome) ∧
        ((rec.tsneX).isSome ↔ (rec.tsneY).isSome)) :=
  ⟨_, rfl, paired_projection_keys sampleExt (dfN 1) 0 _ rfl⟩

/-- C2: for an input table of which `m` rows have a SMILES cell that
parses, the emitted records' `id` values are exactly `0, 1, ..., m-1` in
ascending order — positions in the filtered sequence, not original input
row numbers. -/
theorem dense_ids (ext : ExtOps) (cfg : Config) (t : InputTable) (m : ℕ)
    (hm : m = t.rows.countP fun r => (r.smiles.bind ext.parse).isSome) :
    ((pipeline ext cfg t).2.1).map (fun rec => rec.id) = List.range m := by
  subst hm
  show (prepareViz ext
      (runChemSpace ext cfg (calcDescriptors ext cfg (load ext.parse t))).df).map
      (fun rec => rec.id) = _
  rw [prepareViz_ids, runChemSpace_rows_length, calcDescriptors_rows_length,
    load_rows_length]

/-- Witness for C2 on a 3-row table whose middle row fails to parse
(k = 3, m = 2). -/
theorem dense_ids_witness :
    ((pipeline sampleExt {} tEx).2.1).map (fun rec => rec.id) = List.range 2 :=
  dense_ids sampleExt {} tEx 2 (by decide)

/-- C7: when the input lacks a name column, both loaders number the
synthesized titles `Compound_{i+1}` by 1-based position in the original
pre-filter order: the surviving rows' titles are exactly the titles of
their original positions, so dropped rows are not renumbered into
surviving titles. -/
theorem synthesized_titles_prefilter (parse : String → Option Mol)
    (t : InputTable) (label : String) (rows : List InputRow)
    (hN : t.hasName = false) :
    (load parse t).rows.map (fun r => r.title)
        = (t.rows.enum.filter fun p => (p.2.smiles.bind parse).isSome).map
            (fun p => "Compound_" ++ toString (p.1 + 1)) ∧
      (loadOneCSV parse label false rows).map (fun r => r.name)
        = (rows.enum.filter fun p => (p.2.smiles.bind parse).isSome).map
            (fun p => "Compound_" ++ toString (p.1 + 1)) := by
  constructor
  · unfold load
    rw [List.map_filterMap, List.filterMap_map]
    refine filterMap_if_eq_filter_map _ _ _ (fun p => ?_) t.rows.enum
    cases hsm : p.2.smiles with
    | none => simp [Function.comp, hsm, hN]
    | some s => cases hp : parse s <;> simp [Function.comp, hsm, hp, hN]
  · unfold loadOneCSV
    rw [List.map_filterMap, List.filterMap_map]
    refine filterMap_if_eq_filter_map _ _ _ (fun p => ?_) rows.enum
    cases hsm : p.2.smiles with
    | none => simp [Function.comp, hsm]
    | some s => cases hp : parse s <;> simp [Function.comp, hsm, hp]

/-- Witness for C7 on a 3-row nameless table whose middle row fails to
parse. -/
theorem synthesized_titles_prefilter_witness :
    (load sampleExt.parse tNoName).rows.map (fun r => r.title)
        = (tNoName.rows.enum.filter
            fun p => (p.2.smiles.bind sampleExt.parse).isSome).map
            (fun p => "Compound_" ++ toString (p.1 + 1)) ∧
      (loadOneCSV sampleExt.parse "libA" false tNoName.rows).map (fun r => r.name)
        = (tNoName.rows.enum.filter
            fun p => (p.2.smiles.bind sampleExt.parse).isSome).map
            (fun p => "Compound_" ++ toString (p.1 + 1)) :=
  synthesized_titles_prefilter sampleExt.parse tNoName "libA" tNoName.rows rfl

/-- A second instantiation of the external collaborators differing from
`sampleExt` only in the stochastic t-SNE call. -/
def sampleExt2 : ExtOps :=
  { sampleExt with
    tsneFit := fun m _ _ => m.map fun _ => ((1 : ℚ), (1 : ℚ))
    tsne_rows := by intro m s p; simp }

/-- C8: the fingerprint encoder's output depends only on the generator
functions, the configuration and the molecule, and the PCA stage's
coordinates and explained-variance ratios depend only on the fingerprint
and PCA collaborators (the seed is pinned to 42 in the call), not on the
stochastic t-SNE collaborator — so two runs over the same inputs yield
identical vectors, coordinates and variance ratios. -/
theorem encoder_projector_deterministic (ext₁ ext₂ : ExtOps) (cfg : Config)
    (df : DF) (hm : ext₁.morganBit = ext₂.morganBit)
    (hk : ext₁.rdkitBit = ext₂.rdkitBit) (hs : ext₁.sqrtQ = ext₂.sqrtQ)
    (hpf : ext₁.pcaFit = ext₂.pcaFit) :
    (∀ m : Mol, fpVector ext₁ cfg m = fpVector ext₂ cfg m) ∧
      calcFingerprints ext₁ cfg df = calcFingerprints ext₂ cfg df ∧
      (runChemSpace ext₁ cfg df).pcaRet = (runChemSpace ext₂ cfg df).pcaRet ∧
      (runChemSpace ext₁ cfg df).evr = (runChemSpace ext₂ cfg df).evr := by
  have hfp : ∀ m : Mol, fpVector ext₁ cfg m = fpVector ext₂ cfg m := by
    intro m; unfold fpVector; rw [hm, hk]
  have hcf : calcFingerprints ext₁ cfg df = calcFingerprints ext₂ cfg df := by
    unfold calcFingerprints
    simp only [hfp]
  have hpair : (runChemSpace ext₁ cfg df).pcaRet = (runChemSpace ext₂ cfg df).pcaRet ∧
      (runChemSpace ext₁ cfg df).evr = (runChemSpace ext₂ cfg df).evr := by
    by_cases h2 : df.rows.length < 2
    · rw [runChemSpace_small ext₁ cfg df h2, runChemSpace_small ext₂ cfg df h2]
      exact ⟨rfl, rfl⟩
    · by_cases hp : cfg.pcaEnabled = true
      · obtain ⟨ha1, hb1, -, -⟩ := runChemSpace_pca_on ext₁ cfg df h2 hp
        obtain ⟨ha2, hb2, -, -⟩ := runChemSpace_pca_on ext₂ cfg df h2 hp
        rw [ha1, ha2, hb1, hb2, hcf, hs, hpf]
        exact ⟨rfl, rfl⟩
      · obtain ⟨ha1, hb1, -, -⟩ := runChemSpace_pca_off ext₁ cfg df h2 hp
        obtain ⟨ha2, hb2, -, -⟩ := runChemSpace_pca_off ext₂ cfg df h2 hp
        rw [ha1, ha2, hb1, hb2]
        exact ⟨rfl, rfl⟩
  exact ⟨hfp, hcf, hpair.1, hpair.2⟩

/-- Witness for C8: two collaborator bundles that differ only in the
stochastic t-SNE call give identical fingerprints and identical PCA
outputs on a 3-compound DataFrame. -/
theorem encoder_projector_deterministic_witness :
    (∀ m : Mol, fpVector sampleExt {} m = fpVector sampleExt2 {} m) ∧
      calcFingerprints sampleExt {} (dfN 3) = calcFingerprints sampleExt2 {} (dfN 3) ∧
      (runChemSpace sampleExt {} (dfN 3)).pcaRet
        = (runChemSpace sampleExt2 {} (dfN 3)).pcaRet ∧
      (runChemSpace sampleExt {} (dfN 3)).evr
        = (runChemSpace sampleExt2 {} (dfN 3)).evr :=
  encoder_projector_deterministic sampleExt sampleExt2 {} (dfN 3) rfl rfl rfl rfl

/-- A configuration identical to the defaults except for a tiny
fingerprint width, used to evaluate the pipeline on concrete inputs. -/
def cfg0 : Config := { fpNBits := 0 }

/-- C1: the order invariant.  For every surviving compound `r` at
position `i` of the filtered sequence, row `i` of the fingerprint matrix
is the encoding of `r`'s molecule, and the `i`-th emitted visualization
record carries `id = i` and `r`'s identity (SMILES, title, thumbnail);
when a projection ran, its row `i` is exactly the coordinate pair stored
in that same record. -/
theorem order_invariant (ext : ExtOps) (cfg : Config) (t : InputTable) (i : ℕ)
    (r : CRow) (hr : (load ext.parse t).rows[i]? = some r) :
    (runChemSpace ext cfg (calcDescriptors ext cfg (load ext.parse t))).fpMatrix[i]?
        = some (fpVector ext cfg r.mol) ∧
    ∃ rec, ((pipeline ext cfg t).2.1)[i]? = some rec ∧
      rec.id = i ∧ rec.smiles = r.smiles ∧ rec.title = r.title ∧
      rec.image = ext.render r.mol ∧
      ((runChemSpace ext cfg (calcDescriptors ext cfg (load ext.parse t))).df.pcaCols = true →
        ∃ cs c,
          (runChemSpace ext cfg (calcDescriptors ext cfg (load ext.parse t))).pcaRet
              = some cs ∧
            cs[i]? = some c ∧ rec.pcaX = some c.1 ∧ rec.pcaY = some c.2) ∧
      ((runChemSpace ext cfg (calcDescriptors ext cfg (load ext.parse t))).df.tsneCols = true →
        ∃ c,
          (runChemSpace ext cfg (calcDescriptors ext cfg (load ext.parse t))).tsneRet[i]?
              = some c ∧
            rec.tsneX = some c.1 ∧ rec.tsneY = some c.2) := by
  have hr1 : (calcDescriptors ext cfg (load ext.parse t)).rows[i]?
      = some (if cfg.calcDescriptors = true
          then { r with desc := descRow ext.descFn r.mol } else r) := by
    rw [calcDescriptors_rows_getElem?, hr]
    rfl
  have hfield : (if cfg.calcDescriptors = true
        then { r with desc := descRow ext.descFn r.mol } else r).smiles = r.smiles ∧
      (if cfg.calcDescriptors = true
        then { r with desc := descRow ext.descFn r.mol } else r).title = r.title ∧
      (if cfg.calcDescriptors = true
        then { r with desc := descRow ext.descFn r.mol } else r).mol = r.mol := by
    by_cases hC : cfg.calcDescriptors = true <;> simp [hC]
  obtain ⟨hs1, ht1, hm1⟩ := hfield
  have hPC : (calcDescriptors ext cfg (load ext.parse t)).pcaCols = false :=
    (calcDescriptors_flags ext cfg (load ext.parse t)).1
  have hTC : (calcDescriptors ext cfg (load ext.parse t)).tsneCols = false :=
    (calcDescriptors_flags ext cfg (load ext.parse t)).2
  obtain ⟨r', hdr', hcore, hpca, htsne⟩ :=
    runChemSpace_rows_char ext cfg (calcDescriptors ext cfg (load ext.parse t))
      i _ hr1 hPC hTC
  have hsm' : r'.smiles = r.smiles :=
    (congrArg (fun p => p.1) hcore).trans hs1
  have htt' : r'.title = r.title :=
    (congrArg (fun p => p.2.1) hcore).trans ht1
  have hml' : r'.mol = r.mol :=
    (congrArg (fun p => p.2.2.1) hcore).trans hm1
  constructor
  · rw [runChemSpace_fpMatrix]
    show (calcFingerprints ext cfg (calcDescriptors ext cfg (load ext.parse t)))[i]? = _
    rw [calcFingerprints, List.getElem?_map, hr1]
    simp [hm1]
  · have hprep : (prepareViz ext
        (runChemSpace ext cfg (calcDescriptors ext cfg (load ext.parse t))).df)[i]?
        = some
          { id := i
            title := r'.title
            smiles := r'.smiles
            descVals := fun k =>
              if (runChemSpace ext cfg (calcDescriptors ext cfg (load ext.parse t))).df.descCols
              then r'.desc k else none
            pcaX :=
              if (runChemSpace ext cfg (calcDescriptors ext cfg (load ext.parse t))).df.pcaCols
              then some r'.pca1 else none
            pcaY :=
              if (runChemSpace ext cfg (calcDescriptors ext cfg (load ext.parse t))).df.pcaCols
              then some r'.pca2 else none
            tsneX :=
              if (runChemSpace ext cfg (calcDescriptors ext cfg (load ext.parse t))).df.tsneCols
              then some r'.tsne1 else none
            tsneY :=
              if (runChemSpace ext cfg (calcDescriptors ext cfg (load ext.parse t))).df.tsneCols
              then some r'.tsne2 else none
            image := ext.render r'.mol } := by
      rw [prepareViz_getElem?, hdr']
      rfl
    refine ⟨_, hprep, rfl, hsm', htt', by show ext.render r'.mol = _; rw [hml'], ?_, ?_⟩
    · intro hg
      obtain ⟨cs, c, hcs, hc, hp1, hp2⟩ := hpca hg
      exact ⟨cs, c, hcs, hc, by simp [hg, hp1], by simp [hg, hp2]⟩
    · intro hg
      obtain ⟨c, hc, hp1, hp2⟩ := htsne hg
      exact ⟨c, hc, by simp [hg, hp1], by simp [hg, hp2]⟩

/-- Witness for C1: the first compound of the 3-row table `tEx` (its
fingerprint row, record identity, and both projection guards) under the
tiny-width configuration. -/
theorem order_invariant_witness :
    (runChemSpace sampleExt cfg0 (calcDescriptors sampleExt cfg0 (load sampleExt.parse tEx))).fpMatrix[0]?
        = some (fpVector sampleExt cfg0 0) ∧
    ∃ rec, ((pipeline sampleExt cfg0 tEx).2.1)[0]? = some rec ∧
      rec.id = 0 ∧ rec.smiles = "CCO" ∧ rec.title = "Ethanol" ∧
      rec.image = sampleExt.render 0 ∧
      ((runChemSpace sampleExt cfg0 (calcDescriptors sampleExt cfg0 (load sampleExt.parse tEx))).df.pcaCols = true →
        ∃ cs c,
          (runChemSpace sampleExt cfg0 (calcDescriptors sampleExt cfg0 (load sampleExt.parse tEx))).pcaRet
              = some cs ∧
            cs[0]? = some c ∧ rec.pcaX = some c.1 ∧ rec.pcaY = some c.2) ∧
      ((runChemSpace sampleExt cfg0 (calcDescriptors sampleExt cfg0 (load sampleExt.parse tEx))).df.tsneCols = true →
        ∃ c,
          (runChemSpace sampleExt cfg0 (calcDescriptors sampleExt cfg0 (load sampleExt.parse tEx))).tsneRet[0]?
              = some c ∧
            rec.tsneX = some c.1 ∧ rec.tsneY = some c.2) :=
  order_invariant sampleExt cfg0 tEx 0
    { smiles := "CCO", title := "Ethanol", mol := 0 } rfl

/-- External collaborators for the partial-descriptor-failure scenario:
three structures parse to handles 0, 1, 2 and exactly one descriptor
call — QED on handle 1 — raises; every other call succeeds. -/
def extC5 : ExtOps :=
  { sampleExt with
    parse := fun s =>
      if s = "CCO" then some 0
      else if s = "c1ccccc1" then some 1
      else if s = "CC(=O)O" then some 2
      else none
    descFn := fun m k =>
      if m = 1 ∧ k = DescName.QED then DescRes.err else DescRes.val 1 }

/-- The 3-compound batch for the partial-descriptor-failure scenario. -/
def t5 : InputTable :=
  { hasName := true
    rows := [{ smiles := some "CCO", name := "Ethanol" },
             { smiles := some "c1ccccc1", name := "Benzene" },
             { smiles := some "CC(=O)O", name := "Acetic_acid" }] }

/-- C5 counterexample: in a batch of 3 compounds where compound 1 fails
exactly one descriptor calculation (QED raises, all other calls
succeed), the emitted record for that compound is missing `MW` as well —
not only the failing key — because the per-compound try/except turns the
whole mapping to NaN; all 3 compounds do remain in the output. -/
theorem descriptor_failure_cex :
    extC5.descFn 1 DescName.QED = DescRes.err ∧
    extC5.descFn 1 DescName.MW = DescRes.val 1 ∧
    ∃ rec, ((pipeline extC5 cfg0 t5).2.1)[1]? = some rec ∧
      rec.descVals DescName.MW = none ∧
      ((pipeline extC5 cfg0 t5).2.1).length = 3 :=
  ⟨rfl, rfl, _, rfl, rfl, rfl⟩

/-- C5 amended: when one compound's descriptor batch raises (even for a
single descriptor), that compound's emitted record is missing all nine
descriptor keys — not only the failing one — and every compound in the
batch remains in the output sequence. -/
theorem descriptor_failure_all_keys (ext : ExtOps) (cfg : Config)
    (t : InputTable) (i : ℕ) (r : CRow) (hC : cfg.calcDescriptors = true)
    (hr : (load ext.parse t).rows[i]? = some r)
    (hfail : descRaised ext.descFn r.mol = true) :
    (∃ rec, ((pipeline ext cfg t).2.1)[i]? = some rec ∧
      ∀ k, rec.descVals k = none) ∧
    ((pipeline ext cfg t).2.1).length = (load ext.parse t).rows.length := by
  have hr1 : (calcDescriptors ext cfg (load ext.parse t)).rows[i]?
      = some { r with desc := descRow ext.descFn r.mol } := by
    rw [calcDescriptors_rows_getElem?, hr]
    simp [hC]
  have hdesc : descRow ext.descFn r.mol = fun _ => none := by
    unfold descRow
    rw [hfail]
    rfl
  have hPC : (calcDescriptors ext cfg (load ext.parse t)).pcaCols = false :=
    (calcDescriptors_flags ext cfg (load ext.parse t)).1
  have hTC : (calcDescriptors ext cfg (load ext.parse t)).tsneCols = false :=
    (calcDescriptors_flags ext cfg (load ext.parse t)).2
  obtain ⟨r', hdr', hcore, -, -⟩ :=
    runChemSpace_rows_char ext cfg (calcDescriptors ext cfg (load ext.parse t))
      i _ hr1 hPC hTC
  have hd' : r'.desc = fun _ => none :=
    ((congrArg (fun p => p.2.2.2) hcore).trans (by simp [CRow.core, hdesc]))
  constructor
  · have hprep : (prepareViz ext
        (runChemSpace ext cfg (calcDescriptors ext cfg (load ext.parse t))).df)[i]?
        = some
          { id := i
            title := r'.title
            smiles := r'.smiles
            descVals := fun k =>
              if (runChemSpace ext cfg (calcDescriptors ext cfg (load ext.parse t))).df.descCols
              then r'.desc k else none
            pcaX :=
              if (runChemSpace ext cfg (calcDescriptors ext cfg (load ext.parse t))).df.pcaCols
              then some r'.pca1 else none
            pcaY :=
              if (runChemSpace ext cfg (calcDescriptors ext cfg (load ext.parse t))).df.pcaCols
              then some r'.pca2 else none
            tsneX :=
              if (runChemSpace ext cfg (calcDescriptors ext cfg (load ext.parse t))).df.tsneCols
              then some r'.tsne1 else none
            tsneY :=
              if (runChemSpace ext cfg (calcDescriptors ext cfg (load ext.parse t))).df.tsneCols
              then some r'.tsne2 else none
            image := ext.render r'.mol } := by
      rw [prepareViz_getElem?, hdr']
      rfl
    refine ⟨_, hprep, fun k => ?_⟩
    show (if (runChemSpace ext cfg (calcDescriptors ext cfg (load ext.parse t))).df.descCols
        then r'.desc k else none) = none
    rw [hd']
    simp
  · show (prepareViz ext
      (runChemSpace ext cfg (calcDescriptors ext cfg (load ext.parse t))).df).length = _
    rw [prepareViz_length, runChemSpace_rows_length, calcDescriptors_rows_length]

/-- Witness for C5's amended statement at the concrete 3-compound batch
in which QED raises on compound 1. -/
theorem descriptor_failure_all_keys_witness :
    (∃ rec, ((pipeline extC5 cfg0 t5).2.1)[1]? = some rec ∧
      ∀ k, rec.descVals k = none) ∧
    ((pipeline extC5 cfg0 t5).2.1).length = (load extC5.parse t5).rows.length :=
  descriptor_failure_all_keys extC5 cfg0 t5 1
    { smiles := "c1ccccc1", title := "Benzene", mol := 1 } rfl rfl rfl

/-- C6: every descriptor key of an emitted record is either absent or
bound to the (finite, non-NaN) value of the corresponding DataFrame
cell — a NaN cell is omitted, never emitted — and each
projection-coordinate key is likewise absent or bound to a finite
value (coordinate cells hold finite projector outputs). -/
theorem no_nan_emitted (ext : ExtOps) (cfg : Config) (t : InputTable) (i : ℕ)
    (rec : VizRecord) (hrec : ((pipeline ext cfg t).2.1)[i]? = some rec) :
    (∀ k, rec.descVals k = none ∨
      ∃ v : ℚ, rec.descVals k = some v ∧
        ∃ r, (runChemSpace ext cfg (calcDescriptors ext cfg (load ext.parse t))).df.rows[i]?
            = some r ∧ r.desc k = some v) ∧
    (rec.pcaX = none ∨ ∃ v : ℚ, rec.pcaX = some v) ∧
    (rec.pcaY = none ∨ ∃ v : ℚ, rec.pcaY = some v) ∧
    (rec.tsneX = none ∨ ∃ v : ℚ, rec.tsneX = some v) ∧
    (rec.tsneY = none ∨ ∃ v : ℚ, rec.tsneY = some v) := by
  have hrec' : (prepareViz ext
      (runChemSpace ext cfg (calcDescriptors ext cfg (load ext.parse t))).df)[i]?
      = some rec := hrec
  rw [prepareViz_getElem?] at hrec'
  cases hr : (runChemSpace ext cfg (calcDescriptors ext cfg (load ext.parse t))).df.rows[i]? with
  | none => rw [hr] at hrec'; exact Option.noConfusion hrec'
  | some r =>
    rw [hr] at hrec'
    obtain rfl := Option.some.inj hrec'
    refine ⟨fun k => ?_, ?_, ?_, ?_, ?_⟩
    · show (if _ then r.desc k else none) = none ∨ _
      cases hD : (runChemSpace ext cfg (calcDescriptors ext cfg (load ext.parse t))).df.descCols with
      | false => left; simp [hD]
      | true =>
        cases hv : r.desc k with
        | none => left; simp [hD, hv]
        | some v => right; exact ⟨v, by simp [hD, hv], r, rfl, hv⟩
    all_goals exact Option.eq_none_or_eq_some _

/-- Witness for C6 on the first record of the pipeline over `tEx`. -/
theorem no_nan_emitted_witness :
    ∃ rec, ((pipeline sampleExt cfg0 tEx).2.1)[0]? = some rec ∧
      ((∀ k, rec.descVals k = none ∨
        ∃ v : ℚ, rec.descVals k = some v ∧
          ∃ r, (runChemSpace sampleExt cfg0 (calcDescriptors sampleExt cfg0 (load sampleExt.parse tEx))).df.rows[0]?
              = some r ∧ r.desc k = some v) ∧
      (rec.pcaX = none ∨ ∃ v : ℚ, rec.pcaX = some v) ∧
      (rec.pcaY = none ∨ ∃ v : ℚ, rec.pcaY = some v) ∧
      (rec.tsneX = none ∨ ∃ v : ℚ, rec.tsneX = some v) ∧
      (rec.tsneY = none ∨ ∃ v : ℚ, rec.tsneY = some v)) :=
  ⟨_, rfl, no_nan_emitted sampleExt cfg0 tEx 0 _ rfl⟩

end MolView
